import Mathlib

/-
Shallow embedding of the bowtie-jsu harness
(src/implementations/python-jsu/bowtie_jsu_python.py).

The harness speaks a line-delimited JSON protocol: each input line is parsed,
dispatched by its cmd field to one of the start / dialect / run / stop
handlers, and answered with one JSON response line.  The run handler caches
registry schemas to hash-named files, compiles the case schema through an
external engine, evaluates each test instance, and removes the cached files
in a finally block.

External collaborators (the jsonschema-specifications registry, the
json_schema_to_python_checker engine, platform introspection and the
sha3-256 url hash) are modelled as parameters of an Env record; everything
else is translated directly from the source.
-/

/-- JSON values as produced by json.loads.  Numbers are modelled as integers:
no claim depends on non-integral numerics. -/
inductive Json where
  | null
  | bool (b : Bool)
  | num (n : Int)
  | str (s : String)
  | arr (xs : List Json)
  | obj (kvs : List (String × Json))

/-- Python exceptions that the harness can raise or catch. -/
inductive PyErr where
  | keyError (k : String)
  | typeError (msg : String)
  | attrError (msg : String)
  | assertError (msg : String)
  | valueError (msg : String)
  | osError (fn : String)
  | fileNotFound (fn : String)
  | runnerError (msg : String)
  | engineError (msg : String)
deriving Repr, DecidableEq

/-- Rendering used for the traceback string of an error envelope; the claims
never inspect its content. -/
def PyErr.traceback : PyErr → String
  | PyErr.keyError k => "KeyError: " ++ k
  | PyErr.typeError m => "TypeError: " ++ m
  | PyErr.attrError m => "AttributeError: " ++ m
  | PyErr.assertError m => "AssertionError: " ++ m
  | PyErr.valueError m => "ValueError: " ++ m
  | PyErr.osError fn => "OSError: " ++ fn
  | PyErr.fileNotFound fn => "FileNotFoundError: " ++ fn
  | PyErr.runnerError m => "RunnerError: " ++ m
  | PyErr.engineError m => "EngineError: " ++ m

/-- Python str() restricted to what the claims need: scalars faithfully,
container rendering abstracted. -/
def pyStr : Json → String
  | Json.null => "None"
  | Json.bool true => "True"
  | Json.bool false => "False"
  | Json.num n => toString n
  | Json.str s => s
  | Json.arr _ => "[...]"
  | Json.obj _ => "..."

/-- Dict field access, req.get(k): first binding of the key. -/
def jget (o : List (String × Json)) (k : String) : Option Json :=
  List.lookup k o

/-- Field access on a Json value that is an object. -/
def Json.get? : Json → String → Option Json
  | Json.obj kvs, k => jget kvs k
  | _, _ => none

/-- VERSIONS: JSON Schema version URL to internal version (source lines 30-37). -/
def VERSIONS : List (String × Int) :=
  [("https://json-schema.org/draft/2020-12/schema", 9),
   ("https://json-schema.org/draft/2019-09/schema", 8),
   ("http://json-schema.org/draft-07/schema#", 7),
   ("http://json-schema.org/draft-06/schema#", 6),
   ("http://json-schema.org/draft-04/schema#", 4),
   ("http://json-schema.org/draft-03/schema#", 3)]

/-- CACHE: directory used for registry and meta schemas (source line 40). -/
def CACHE : String := "./schema-cache-by-hashed-urls"

/-- The on-disk cache, a map from filename to stored document. -/
abbrev Disk := List (String × Json)

/-- Whether a file of this name exists. -/
def diskHas (fn : String) (disk : Disk) : Bool :=
  disk.any (fun p => p.1 == fn)

/-- Writing a file truncates any previous content under the same name. -/
def diskWrite (fn : String) (content : Json) (disk : Disk) : Disk :=
  (fn, content) :: disk.filter (fun p => p.1 != fn)

/-- Path(fn).unlink() removes the file; the caller must check existence,
unlinking a missing file raises. -/
def diskUnlink (fn : String) (disk : Disk) : Disk :=
  disk.filter (fun p => p.1 != fn)

/-- External collaborators of the harness: the well-known specification
registry SPECS, the truncated sha3-256 url hash, the possibility of a file
write failing at the OS level, the compiling engine, and the platform
introspection strings used by cmd_start. -/
structure Env where
  specs : List (String × Json)
  uh : String → String
  writeOk : String → Bool
  compile : Json → Option String → String → Option Int →
      Except PyErr (Json → Except PyErr Bool)
  pythonVersion : String
  jsuVersion : String
  osName : String
  osVersion : String

/-- Cache filename for a url: CACHE/uh.json with uh the truncated hash
(source lines 114-115). -/
def cacheFile (env : Env) (url : String) : String :=
  CACHE ++ "/" ++ env.uh url ++ ".json"

/-- Mutable state of the Runner dataclass: current dialect and input line
counter (source lines 53-59). -/
structure Runner where
  version : Option Int := none
  line : Nat := 0

/-- Whole-process state: the Runner fields plus the cache directory. -/
structure Sys where
  st : Runner
  disk : Disk

/-- Writes one registry to the cache: for each (url, schema) the filename is
appended to files before the write is attempted, exactly as in the source
(lines 111-118); a failing write raises with the filename already recorded. -/
def cacheRegs (env : Env) :
    List (String × Json) → List String → Disk →
    List String × Disk × Option PyErr
  | [], files, disk => (files, disk, none)
  | (url, schema) :: rest, files, disk =>
    let fn := cacheFile env url
    let files1 := files ++ [fn]
    if env.writeOk fn then
      cacheRegs env rest files1 (diskWrite fn schema disk)
    else
      (files1, disk, some (PyErr.osError fn))

/-- case.get("registry") as an iterable of items: absent and null both skip
the loop (json null loads as Python None); a non-dict value raises
AttributeError on .items(). -/
def regOfJson : Option Json → Except PyErr (List (String × Json))
  | none => Except.ok []
  | some Json.null => Except.ok []
  | some (Json.obj kvs) => Except.ok kvs
  | some _ => Except.error (PyErr.attrError "items")

/-- test["instance"]: KeyError when the test object lacks the key, TypeError
when the test is not a dict. -/
def getInstance : Json → Except PyErr Json
  | Json.obj kvs =>
    match jget kvs "instance" with
    | some v => Except.ok v
    | none => Except.error (PyErr.keyError "instance")
  | _ => Except.error (PyErr.typeError "not subscriptable")

/-- The result comprehension of cmd_run (source line 128): one
valid-entry per test, in order, aborting on the first failure. -/
def evalTests (checker : Json → Except PyErr Bool) :
    List Json → Except PyErr (List Json)
  | [] => Except.ok []
  | t :: ts =>
    match getInstance t with
    | Except.error e => Except.error e
    | Except.ok inst =>
      match checker inst with
      | Except.error e => Except.error e
      | Except.ok b =>
        match evalTests checker ts with
        | Except.error e => Except.error e
        | Except.ok rest => Except.ok (Json.obj [("valid", Json.bool b)] :: rest)

/-- description = case.get("description") with the assert that it is None or
a string; json null loads as None. -/
def descrCheck : Option Json → Except PyErr (Option String)
  | none => Except.ok none
  | some Json.null => Except.ok none
  | some (Json.str s) => Except.ok (some s)
  | some _ => Except.error (PyErr.assertError "description is a string or none")

/-- req.get("seq"), which json.dumps serialises as null when the request has
no seq field. -/
def seqOf (req : List (String × Json)) : Json :=
  (jget req "seq").getD Json.null

/-- Success envelope of cmd_run (source lines 143-146). -/
def successResponse (req : List (String × Json)) (results : List Json) : Json :=
  Json.obj [("seq", seqOf req), ("results", Json.arr results)]

/-- Error envelope of cmd_run (source lines 131-136). -/
def erroredResponse (req : List (String × Json)) (e : PyErr) : Json :=
  Json.obj [("errored", Json.bool true), ("seq", seqOf req),
            ("context", Json.obj [("traceback", Json.str e.traceback)])]

/-- Body of the try block of cmd_run: cache SPECS and the case registry,
compile the schema, evaluate the tests.  Returns the files list, the disk
after the performed writes, and the result or the first raised error. -/
def runTry (env : Env) (caseObj : List (String × Json)) (descr : Option String)
    (tests : List Json) (version : Option Int) (disk : Disk) :
    List String × Disk × Except PyErr (List Json) :=
  match cacheRegs env env.specs [] disk with
  | (files, disk1, some e) => (files, disk1, Except.error e)
  | (files, disk1, none) =>
    match regOfJson (jget caseObj "registry") with
    | Except.error e => (files, disk1, Except.error e)
    | Except.ok regs =>
      match cacheRegs env regs files disk1 with
      | (files2, disk2, some e) => (files2, disk2, Except.error e)
      | (files2, disk2, none) =>
        match jget caseObj "schema" with
        | none => (files2, disk2, Except.error (PyErr.keyError "schema"))
        | some schema =>
          match env.compile schema descr CACHE version with
          | Except.error e => (files2, disk2, Except.error e)
          | Except.ok checker =>
            match evalTests checker tests with
            | Except.error e => (files2, disk2, Except.error e)
            | Except.ok results => (files2, disk2, Except.ok results)

/-- The finally block of cmd_run: unlink every recorded filename in order;
unlinking a file that does not exist raises FileNotFoundError, abandoning the
rest of the loop. -/
def unlinkAll : List String → Disk → Option PyErr × Disk
  | [], disk => (none, disk)
  | fn :: rest, disk =>
    if diskHas fn disk then unlinkAll rest (diskUnlink fn disk)
    else (some (PyErr.fileNotFound fn), disk)

/-- cmd_run (source lines 95-146).  The shape checks on case, description and
tests sit before the try block, so their failures escape the handler; inside
the try any exception is converted to the error envelope; the finally block
runs before either return and its own failure replaces the return value with
an escaping exception. -/
def cmd_run (env : Env) (st : Runner) (req : List (String × Json)) (disk : Disk) :
    Except PyErr Json × Disk :=
  match jget req "case" with
  | none => (Except.error (PyErr.keyError "case"), disk)
  | some caseJson =>
    match caseJson with
    | Json.obj caseObj =>
      match descrCheck (jget caseObj "description") with
      | Except.error e => (Except.error e, disk)
      | Except.ok descr =>
        match jget caseObj "tests" with
        | none => (Except.error (PyErr.keyError "tests"), disk)
        | some (Json.arr tests) =>
          match runTry env caseObj descr tests st.version disk with
          | (files, disk1, tryRes) =>
            match unlinkAll files disk1 with
            | (some e, disk2) => (Except.error e, disk2)
            | (none, disk2) =>
              match tryRes with
              | Except.ok results => (Except.ok (successResponse req results), disk2)
              | Except.error e => (Except.ok (erroredResponse req e), disk2)
        | some _ => (Except.error (PyErr.assertError "tests is a list of instances"), disk)
    | _ => (Except.error (PyErr.assertError "case is an object"), disk)

/-- VERSIONS[req["dialect"]] with except KeyError: hashable keys that are not
in the table raise KeyError, caught and mapped to 0; unhashable keys (lists
and dicts) raise TypeError, which is not caught. -/
def versionOf : Json → Except PyErr Int
  | Json.arr _ => Except.error (PyErr.typeError "unhashable type list")
  | Json.obj _ => Except.error (PyErr.typeError "unhashable type dict")
  | Json.str s =>
    match List.lookup s VERSIONS with
    | some v => Except.ok v
    | none => Except.ok 0
  | _ => Except.ok 0

/-- cmd_dialect (source lines 83-93): asserts the dialect field is present,
stores the resolved version (0 for unknown identifiers) and always answers
ok true. -/
def cmd_dialect (st : Runner) (req : List (String × Json)) :
    Except PyErr (Json × Runner) :=
  match jget req "dialect" with
  | none => Except.error (PyErr.assertError "dialect command expects a dialect")
  | some d =>
    match versionOf d with
    | Except.error e => Except.error e
    | Except.ok v =>
      Except.ok (Json.obj [("ok", Json.bool true)], { st with version := some v })

/-- The sorted list of supported dialect urls used by cmd_start. -/
def DIALECTS : List String :=
  (VERSIONS.map Prod.fst).mergeSort (fun a b => decide (a ≤ b))

/-- req.get("version") == 1 under Python equality, where True == 1. -/
def isOne : Option Json → Bool
  | some (Json.num 1) => true
  | some (Json.bool true) => true
  | _ => false

/-- cmd_start (source lines 61-81): asserts protocol version 1 and assembles
the implementation metadata. -/
def cmd_start (env : Env) (req : List (String × Json)) : Except PyErr Json :=
  if isOne (jget req "version") then
    Except.ok (Json.obj
      [("version", Json.num 1),
       ("implementation", Json.obj
         [("language", Json.str "python"),
          ("language_version", Json.str env.pythonVersion),
          ("name", Json.str "jsu"),
          ("version", Json.str env.jsuVersion),
          ("homepage", Json.str "https://github.com/zx80/json-schema-utils/"),
          ("documentation", Json.str "https://github.com/zx80/json-schema-utils/"),
          ("issues", Json.str "https://github.com/zx80/json-schema-utils/issues"),
          ("source", Json.str "https://github.com/zx80/json-schema-utils.git"),
          ("dialects", Json.arr (DIALECTS.map Json.str)),
          ("os", Json.str env.osName),
          ("os_version", Json.str env.osVersion)])])
  else Except.error (PyErr.assertError "expecting protocol version 1")

/-- Outcome of processing one request: a response, a sys.exit(0) from stop,
or an exception escaping the handler. -/
inductive StepRes where
  | reply (res : Json) (sys : Sys)
  | exit (sys : Sys)
  | crash (e : PyErr) (sys : Sys)

/-- process (source lines 152-166): dispatch on cmd, default run; an
unrecognised command raises RunnerError. -/
def process (env : Env) (sys : Sys) (req : List (String × Json)) : StepRes :=
  match (jget req "cmd").getD (Json.str "run") with
  | Json.str s =>
    if s = "start" then
      match cmd_start env req with
      | Except.ok res => StepRes.reply res sys
      | Except.error e => StepRes.crash e sys
    else if s = "dialect" then
      match cmd_dialect sys.st req with
      | Except.ok (res, st1) => StepRes.reply res { sys with st := st1 }
      | Except.error e => StepRes.crash e sys
    else if s = "run" then
      match cmd_run env sys.st req sys.disk with
      | (Except.ok res, disk1) => StepRes.reply res { sys with disk := disk1 }
      | (Except.error e, disk1) => StepRes.crash e { sys with disk := disk1 }
    else if s = "stop" then
      StepRes.exit sys
    else
      StepRes.crash (PyErr.runnerError ("unexpected bowtie command cmd=" ++ s)) sys
  | c =>
    StepRes.crash (PyErr.runnerError ("unexpected bowtie command cmd=" ++ pyStr c)) sys

/-- How the top-level loop ends: input exhausted, sys.exit(0) from stop, or
an exception re-raised after the stderr note (the voluntary crash). -/
inductive Final where
  | eof (sys : Sys)
  | stopped (sys : Sys)
  | crashed (e : PyErr) (sys : Sys)

/-- self.line += 1 at the top of each loop iteration. -/
def bumpLine (sys : Sys) : Sys :=
  { sys with st := { sys.st with line := sys.st.line + 1 } }

/-- run (source lines 168-184): each input line is either unparseable (none)
or a parsed Json value; a non-object line fails the assert; any exception
from process is re-raised, ending the loop with no response for that line.
Returns the emitted response lines and how the loop ended. -/
def runLoop (env : Env) (sys : Sys) : List (Option Json) → List Json × Final
  | [] => ([], Final.eof sys)
  | line :: rest =>
    let sys1 := bumpLine sys
    match line with
    | none => ([], Final.crashed (PyErr.valueError "invalid json input") sys1)
    | some (Json.obj req) =>
      match process env sys1 req with
      | StepRes.reply res sys2 =>
        let (outs, fin) := runLoop env sys2 rest
        (res :: outs, fin)
      | StepRes.exit sys2 => ([], Final.stopped sys2)
      | StepRes.crash e sys2 => ([], Final.crashed e sys2)
    | some _ =>
      ([], Final.crashed (PyErr.assertError "input must be a json object") sys1)

/-- Whether a response is an error envelope. -/
def isErrored (res : Json) : Bool :=
  match res with
  | Json.obj kvs =>
    match jget kvs "errored" with
    | some (Json.bool b) => b
    | _ => false
  | _ => false

/-- A minimal well-behaved environment: empty specification registry, the
identity as url hash, writes that always succeed, and an engine whose
checkers accept everything. -/
def idEnv : Env :=
  { specs := [],
    uh := fun s => s,
    writeOk := fun _ => true,
    compile := fun _ _ _ _ => Except.ok (fun _ => Except.ok true),
    pythonVersion := "3.13.1",
    jsuVersion := "jsu 1.0",
    osName := "Linux",
    osVersion := "6.1" }

/-- Fresh Runner state: no dialect negotiated yet, line counter 0. -/
def st0 : Runner := {}

/-- Fresh process state with an empty cache directory. -/
def sys0 : Sys := { st := st0, disk := [] }

/-- A case with a trivial schema and no tests. -/
def case1 : List (String × Json) :=
  [("schema", Json.bool true), ("tests", Json.arr [])]

/-- A run request for case1 with no seq field. -/
def req1 : List (String × Json) :=
  [("cmd", Json.str "run"), ("case", Json.obj case1)]

/-- A dialect request with an identifier outside the VERSIONS table. -/
def reqUnknownDialect : List (String × Json) :=
  [("cmd", Json.str "dialect"),
   ("dialect", Json.str "https://example.org/unknown-schema")]

/-- A dialect request naming draft 2020-12. -/
def req2020 : List (String × Json) :=
  [("cmd", Json.str "dialect"),
   ("dialect", Json.str "https://json-schema.org/draft/2020-12/schema")]

/-- A dialect request naming draft 2019-09. -/
def req2019 : List (String × Json) :=
  [("cmd", Json.str "dialect"),
   ("dialect", Json.str "https://json-schema.org/draft/2019-09/schema")]

/-- An environment whose engine reflects the version argument it received:
the compiled checker answers true exactly when compile was called with
version 9.  Used to observe which dialect value cmd_run hands the engine. -/
def probeEnv : Env :=
  { idEnv with
    compile := fun _ _ _ v => Except.ok (fun _ => Except.ok (v == some 9)) }

/-- A case with one test instance, for probing the engine call. -/
def probeCase : List (String × Json) :=
  [("schema", Json.bool true),
   ("tests", Json.arr [Json.obj [("instance", Json.null)]])]

/-- A run request (default cmd) for probeCase. -/
def probeReq : List (String × Json) :=
  [("case", Json.obj probeCase)]

/-- An environment with one well-known registry entry whose cache write
fails at the OS level. -/
def failWriteEnv : Env :=
  { idEnv with
    specs := [("urn:spec", Json.null)],
    writeOk := fun _ => false }

/-- An environment whose engine fails on every compilation. -/
def failCompileEnv : Env :=
  { idEnv with
    compile := fun _ _ _ _ => Except.error (PyErr.engineError "compilation failed") }

/-- A run request for case1 with no cmd and no seq field. -/
def reqNoSeq : List (String × Json) :=
  [("case", Json.obj case1)]

/-- An environment with one well-known registry entry and reliable writes. -/
def regEnv : Env :=
  { idEnv with specs := [("urn:spec", Json.bool true)] }

/-- Whether the description field of a case fails the assert of cmd_run:
present but neither null (Python None) nor a string. -/
def badDescription : Option Json → Bool
  | none => false
  | some Json.null => false
  | some (Json.str _) => false
  | some _ => true

/-- Whether the tests field of a case is present but not a list. -/
def badTests : Option Json → Bool
  | some (Json.arr _) => false
  | _ => false

/-- The request shapes of claim C8: case absent, case not an object,
description present but neither null nor a string, or tests present but not
a list. -/
def badRunShape (req : List (String × Json)) : Bool :=
  match jget req "case" with
  | none => true
  | some (Json.obj c) => badDescription (jget c "description") || badTests (jget c "tests")
  | some _ => true

/-- A run request whose case field is a non-object. -/
def reqBadCase : List (String × Json) :=
  [("case", Json.null)]

/-- A dialect request lacking the dialect field. -/
def reqDialectMissing : List (String × Json) :=
  [("cmd", Json.str "dialect")]

section Lemmas

/-- A successful evalTests returns one valid-entry per test, in order. -/
theorem evalTests_ok_spec (checker : Json → Except PyErr Bool) :
    ∀ (ts rs : List Json), evalTests checker ts = Except.ok rs →
      rs.length = ts.length ∧
      ∀ i, i < ts.length → ∃ t b, ts[i]? = some t ∧
        Except.bind (getInstance t) checker = Except.ok b ∧
        rs[i]? = some (Json.obj [("valid", Json.bool b)]) := by
  intro ts
  induction ts with
  | nil =>
    intro rs h
    simp only [evalTests] at h
    injection h with h
    subst h
    exact ⟨rfl, fun i hi => absurd hi (by simp)⟩
  | cons t ts ih =>
    intro rs h
    simp only [evalTests] at h
    split at h
    next e hInstErr => exact Except.noConfusion h
    next inst hInst =>
      split at h
      next e hChkErr => exact Except.noConfusion h
      next b hChk =>
        split at h
        next e hRestErr => exact Except.noConfusion h
        next rest hRest =>
          injection h with h
          subst h
          obtain ⟨ihlen, ihspec⟩ := ih rest hRest
          refine ⟨by simp [ihlen], fun i hi => ?_⟩
          cases i with
          | zero =>
            refine ⟨t, b, by simp, ?_, by simp⟩
            show Except.bind (getInstance t) checker = Except.ok b
            rw [hInst]
            exact hChk
          | succ i =>
            have hi2 : i < ts.length := by
              simp only [List.length_cons] at hi
              omega
            obtain ⟨t2, b2, h1, h2, h3⟩ := ihspec i hi2
            exact ⟨t2, b2, by simpa using h1, h2, by simpa using h3⟩

/-- Filtering cannot make a file appear. -/
theorem diskHas_filter (fn : String) (p : String × Json → Bool) (d : Disk)
    (h : diskHas fn d = false) : diskHas fn (d.filter p) = false := by
  induction d with
  | nil => rfl
  | cons q rest ih =>
    simp only [diskHas, List.any_cons, Bool.or_eq_false_iff] at h
    obtain ⟨h1, h2⟩ := h
    simp only [List.filter_cons]
    split
    · simp only [diskHas, List.any_cons, Bool.or_eq_false_iff]
      exact ⟨h1, ih h2⟩
    · exact ih h2

/-- Unlinking a file removes every trace of it. -/
theorem diskHas_unlink_self (fn : String) (d : Disk) :
    diskHas fn (diskUnlink fn d) = false := by
  induction d with
  | nil => rfl
  | cons q rest ih =>
    simp only [diskUnlink, List.filter_cons]
    split
    · next hq =>
      simp only [bne_iff_ne, ne_eq] at hq
      simp only [diskHas, List.any_cons, Bool.or_eq_false_iff]
      exact ⟨by simpa using hq, ih⟩
    · exact ih

/-- Unlinking one file does not affect the presence of another. -/
theorem diskHas_unlink_ne (fn g : String) (hne : fn ≠ g) (d : Disk) :
    diskHas fn (diskUnlink g d) = diskHas fn d := by
  induction d with
  | nil => rfl
  | cons q rest ih =>
    simp only [diskHas, diskUnlink] at ih ⊢
    simp only [List.filter_cons]
    split
    · simp only [List.any_cons]
      rw [ih]
    · next hq =>
      simp only [bne_iff_ne, ne_eq, not_not] at hq
      simp only [List.any_cons]
      have hq1 : (q.1 == fn) = false := by
        subst hq
        exact beq_eq_false_iff_ne.mpr (fun heq => hne heq.symm)
      rw [ih, hq1]
      simp

/-- The unlink loop never creates files. -/
theorem unlinkAll_not_has (fn : String) :
    ∀ (files : List String) (disk disk2 : Disk) (res : Option PyErr),
      unlinkAll files disk = (res, disk2) → diskHas fn disk = false →
      diskHas fn disk2 = false := by
  intro files
  induction files with
  | nil =>
    intro disk disk2 res h hf
    simp only [unlinkAll] at h
    cases h
    exact hf
  | cons g rest ih =>
    intro disk disk2 res h hf
    simp only [unlinkAll] at h
    split at h
    · exact ih (diskUnlink g disk) disk2 res h (diskHas_filter fn _ disk hf)
    · cases h
      exact hf

/-- When the unlink loop completes, every file it visited is gone. -/
theorem unlinkAll_none_removes :
    ∀ (files : List String) (disk disk2 : Disk),
      unlinkAll files disk = (none, disk2) →
      ∀ fn ∈ files, diskHas fn disk2 = false := by
  intro files
  induction files with
  | nil =>
    intro disk disk2 h fn hfn
    simp at hfn
  | cons g rest ih =>
    intro disk disk2 h fn hfn
    simp only [unlinkAll] at h
    split at h
    · rcases List.mem_cons.mp hfn with hfg | hmem
      · subst hfg
        exact unlinkAll_not_has fn rest (diskUnlink fn disk) disk2 none h
          (diskHas_unlink_self fn disk)
      · exact ih (diskUnlink g disk) disk2 h fn hmem
    · injection h with h1 h2
      exact Option.noConfusion h1

/-- When every visited file exists and no name repeats, the unlink loop
completes without raising. -/
theorem unlinkAll_succeeds :
    ∀ (files : List String) (disk : Disk), files.Nodup →
      (∀ fn ∈ files, diskHas fn disk = true) →
      ∃ disk2, unlinkAll files disk = (none, disk2) := by
  intro files
  induction files with
  | nil => exact fun disk _ _ => ⟨disk, rfl⟩
  | cons g rest ih =>
    intro disk hnd hon
    have hg : diskHas g disk = true := hon g (List.mem_cons_self g rest)
    have hnd2 := List.nodup_cons.mp hnd
    have hon2 : ∀ fn ∈ rest, diskHas fn (diskUnlink g disk) = true := by
      intro fn hfn
      have hne : fn ≠ g := fun hfg => hnd2.1 (hfg ▸ hfn)
      rw [diskHas_unlink_ne fn g hne]
      exact hon fn (List.mem_cons_of_mem g hfn)
    obtain ⟨disk2, h2⟩ := ih (diskUnlink g disk) hnd2.2 hon2
    refine ⟨disk2, ?_⟩
    simp only [unlinkAll, hg, if_true]
    exact h2

/-- A successful lookup returns one of the stored values. -/
theorem lookup_mem_snd {α β : Type} [BEq α] :
    ∀ (l : List (α × β)) (k : α) (v : β),
      List.lookup k l = some v → v ∈ l.map Prod.snd := by
  intro l
  induction l with
  | nil => intro k v h; simp [List.lookup] at h
  | cons p rest ih =>
    intro k v h
    cases p with
    | mk k1 v1 =>
      simp only [List.lookup] at h
      split at h
      · injection h with h
        subst h
        simp
      · simp only [List.map_cons, List.mem_cons]
        exact Or.inr (ih k v h)

/-- A pair holding an escaping error never equals a returned pair. -/
theorem pair_err_ne (e : PyErr) (d d2 : Disk) (res : Json) :
    ((Except.error e : Except PyErr Json), d) ≠ (Except.ok res, d2) := by
  intro h
  injection h with h1 h2
  exact Except.noConfusion h1

/-- A failed try phase never equals a successful one. -/
theorem triple_err_ne (fs fs2 : List String) (d d2 : Disk) (e : PyErr)
    (rs : List Json) :
    (fs, d, (Except.error e : Except PyErr (List Json))) ≠ (fs2, d2, Except.ok rs) := by
  intro h
  injection h with h1 h2
  injection h2 with h2 h3
  exact Except.noConfusion h3

/-- A successful runTry looked up the schema, compiled it and evaluated the
tests through the resulting checker. -/
theorem runTry_ok_evalTests (env : Env) (caseObj : List (String × Json))
    (descr : Option String) (tests : List Json) (version : Option Int)
    (disk : Disk) (files : List String) (disk1 : Disk) (results : List Json)
    (h : runTry env caseObj descr tests version disk = (files, disk1, Except.ok results)) :
    ∃ schema checker,
      jget caseObj "schema" = some schema ∧
      env.compile schema descr CACHE version = Except.ok checker ∧
      evalTests checker tests = Except.ok results := by
  unfold runTry at h
  split at h
  · exact absurd h (triple_err_ne _ _ _ _ _ _)
  split at h
  · exact absurd h (triple_err_ne _ _ _ _ _ _)
  rename_i regs hregs
  split at h
  · exact absurd h (triple_err_ne _ _ _ _ _ _)
  split at h
  · exact absurd h (triple_err_ne _ _ _ _ _ _)
  rename_i schema hschema
  split at h
  · exact absurd h (triple_err_ne _ _ _ _ _ _)
  rename_i checker hcompile
  split at h
  · exact absurd h (triple_err_ne _ _ _ _ _ _)
  rename_i results0 hEval
  injection h with h1 h2
  injection h2 with h2 h3
  injection h3 with h3
  exact ⟨schema, checker, hschema, hcompile, h3 ▸ hEval⟩

/-- Anatomy of a cmd_run call that returns a response: the request passed the
shape checks, the try phase ran, the finally loop unlinked every recorded
file, and the response is the success or the error envelope according to the
try outcome. -/
theorem cmd_run_ok_cases (env : Env) (st : Runner) (req : List (String × Json))
    (disk : Disk) (res : Json) (disk2 : Disk)
    (h : cmd_run env st req disk = (Except.ok res, disk2)) :
    ∃ caseObj descr tests files disk1 tryRes,
      jget req "case" = some (Json.obj caseObj) ∧
      descrCheck (jget caseObj "description") = Except.ok descr ∧
      jget caseObj "tests" = some (Json.arr tests) ∧
      runTry env caseObj descr tests st.version disk = (files, disk1, tryRes) ∧
      unlinkAll files disk1 = (none, disk2) ∧
      ((∃ results, tryRes = Except.ok results ∧ res = successResponse req results) ∨
       (∃ e, tryRes = Except.error e ∧ res = erroredResponse req e)) := by
  unfold cmd_run at h
  split at h
  · exact absurd h (pair_err_ne _ _ _ _)
  rename_i caseJson hcase
  split at h
  all_goals try exact absurd h (pair_err_ne _ _ _ _)
  rename_i caseObj
  split at h
  · exact absurd h (pair_err_ne _ _ _ _)
  rename_i descr hdesc
  split at h
  all_goals try exact absurd h (pair_err_ne _ _ _ _)
  rename_i tests htests
  split at h
  rename_i files disk1 tryRes hRT
  split at h
  · exact absurd h (pair_err_ne _ _ _ _)
  rename_i disk2x hUn
  split at h
  · rename_i results
    injection h with h1 h2
    injection h1 with h1
    subst h2
    exact ⟨caseObj, descr, tests, files, disk1, Except.ok results,
      hcase, hdesc, htests, hRT, hUn, Or.inl ⟨results, rfl, h1.symm⟩⟩
  · rename_i e
    injection h with h1 h2
    injection h1 with h1
    subst h2
    exact ⟨caseObj, descr, tests, files, disk1, Except.error e,
      hcase, hdesc, htests, hRT, hUn, Or.inr ⟨e, rfl, h1.symm⟩⟩

/-- Dispatch of an explicit run command. -/
theorem process_run (env : Env) (sys : Sys) (req : List (String × Json))
    (hcmd : jget req "cmd" = some (Json.str "run")) :
    process env sys req =
      match cmd_run env sys.st req sys.disk with
      | (Except.ok res, disk1) => StepRes.reply res { sys with disk := disk1 }
      | (Except.error e, disk1) => StepRes.crash e { sys with disk := disk1 } := by
  unfold process
  rw [hcmd]
  rfl

/-- Dispatch of a request with no cmd field: the default is run. -/
theorem process_default_run (env : Env) (sys : Sys) (req : List (String × Json))
    (hcmd : jget req "cmd" = none) :
    process env sys req =
      match cmd_run env sys.st req sys.disk with
      | (Except.ok res, disk1) => StepRes.reply res { sys with disk := disk1 }
      | (Except.error e, disk1) => StepRes.crash e { sys with disk := disk1 } := by
  unfold process
  rw [hcmd]
  rfl

/-- Dispatch of a dialect command. -/
theorem process_dialect (env : Env) (sys : Sys) (req : List (String × Json))
    (hcmd : jget req "cmd" = some (Json.str "dialect")) :
    process env sys req =
      match cmd_dialect sys.st req with
      | Except.ok (res, st1) => StepRes.reply res { sys with st := st1 }
      | Except.error e => StepRes.crash e sys := by
  unfold process
  rw [hcmd]
  rfl

/-- A crashing handler ends the loop with no response for its line and no
further lines read. -/
theorem runLoop_cons_crash (env : Env) (sys : Sys) (req : List (String × Json))
    (rest : List (Option Json)) (e : PyErr) (sys2 : Sys)
    (h : process env (bumpLine sys) req = StepRes.crash e sys2) :
    runLoop env sys (some (Json.obj req) :: rest) = ([], Final.crashed e sys2) := by
  simp only [runLoop]
  rw [h]

/-- A value successfully resolved by VERSIONS lookup with KeyError fallback
is one of the table ordinals or 0. -/
theorem versionOf_ok_mem (d : Json) (v : Int) (h : versionOf d = Except.ok v) :
    v ∈ ([0, 3, 4, 6, 7, 8, 9] : List Int) := by
  cases d with
  | arr xs => exact Except.noConfusion h
  | obj kvs => exact Except.noConfusion h
  | str s =>
    simp only [versionOf] at h
    split at h
    · rename_i w hw
      injection h with h
      subst h
      have hm := lookup_mem_snd VERSIONS s w hw
      rw [show VERSIONS.map Prod.snd = [9, 8, 7, 6, 4, 3] from rfl] at hm
      simp only [List.mem_cons, List.not_mem_nil, or_false] at hm
      rcases hm with rfl | rfl | rfl | rfl | rfl | rfl <;> decide
    · injection h with h
      subst h
      decide
  | null => injection h with h; subst h; decide
  | bool b => injection h with h; subst h; decide
  | num n => injection h with h; subst h; decide

end Lemmas

/-- C2 counterexample: the dialect identifier is not in the VERSIONS table,
yet the handler replies ok true (the claim demands ok false here); the
unsupported sentinel 0 is stored instead. -/
theorem dialect_unknown_reports_ok_true_cex :
    List.lookup "https://example.org/unknown-schema" VERSIONS = none ∧
    cmd_dialect st0 reqUnknownDialect =
      Except.ok (Json.obj [("ok", Json.bool true)], { version := some 0, line := 0 }) :=
  ⟨rfl, rfl⟩

/-- C2 (amended): every reply of cmd_dialect is ok true, whatever the
dialect identifier; unknown identifiers only differ by storing the
unsupported sentinel 0 in the session state. -/
theorem dialect_reply_always_ok_true (st : Runner) (req : List (String × Json))
    (res : Json) (st2 : Runner)
    (h : cmd_dialect st req = Except.ok (res, st2)) :
    res = Json.obj [("ok", Json.bool true)] := by
  unfold cmd_dialect at h
  split at h
  · exact Except.noConfusion h
  rename_i d hd
  split at h
  · exact Except.noConfusion h
  rename_i v hv
  injection h with h
  injection h with h1 h2
  exact h1.symm

/-- C2 witness: the amended theorem applied to the unknown-dialect request. -/
theorem dialect_reply_always_ok_true_witness :
    ∃ res st2, cmd_dialect st0 reqUnknownDialect = Except.ok (res, st2) ∧
      res = Json.obj [("ok", Json.bool true)] :=
  ⟨Json.obj [("ok", Json.bool true)], { version := some 0, line := 0 }, rfl,
    dialect_reply_always_ok_true st0 reqUnknownDialect
      (Json.obj [("ok", Json.bool true)]) { version := some 0, line := 0 } rfl⟩

/-- C3 counterexample: after a dialect command naming draft 2020-12 the
session dialect is the table ordinal 9, not the unspecified sentinel (none),
and a subsequent run hands the engine exactly some 9: with probeEnv (whose
checker answers true exactly when compile received version 9) the run
reports valid true. -/
theorem dialect_2020_12_stores_ordinal_cex :
    cmd_dialect st0 req2020 =
      Except.ok (Json.obj [("ok", Json.bool true)], { version := some 9, line := 0 }) ∧
    (some (9 : Int) ≠ (none : Option Int)) ∧
    cmd_run probeEnv { version := some 9, line := 0 } probeReq [] =
      (Except.ok (successResponse probeReq [Json.obj [("valid", Json.bool true)]]), []) :=
  ⟨rfl, by decide, rfl⟩

/-- C3 (amended): a dialect command naming draft 2020-12 stores ordinal 9
and one naming draft 2019-09 stores ordinal 8 — never an unspecified
sentinel — and cmd_run passes the stored session dialect unchanged to the
engine, as probeEnv observes. -/
theorem dialect_newest_drafts_store_ordinal :
    (∀ (st : Runner) (res : Json) (st2 : Runner),
        cmd_dialect st req2020 = Except.ok (res, st2) → st2.version = some 9) ∧
    (∀ (st : Runner) (res : Json) (st2 : Runner),
        cmd_dialect st req2019 = Except.ok (res, st2) → st2.version = some 8) ∧
    (∀ st : Runner, st.version = some 9 →
        cmd_run probeEnv st probeReq [] =
          (Except.ok (successResponse probeReq [Json.obj [("valid", Json.bool true)]]), [])) := by
  refine ⟨?_, ?_, ?_⟩
  · intro st res st2 h
    rw [show cmd_dialect st req2020 =
        Except.ok (Json.obj [("ok", Json.bool true)], { st with version := some 9 })
      from rfl] at h
    injection h with h
    injection h with h1 h2
    rw [← h2]
  · intro st res st2 h
    rw [show cmd_dialect st req2019 =
        Except.ok (Json.obj [("ok", Json.bool true)], { st with version := some 8 })
      from rfl] at h
    injection h with h
    injection h with h1 h2
    rw [← h2]
  · intro st hv
    obtain ⟨ver, l⟩ := st
    rw [show ({ version := ver, line := l } : Runner).version = ver from rfl] at hv
    subst hv
    rfl

/-- C3 witness: the amended theorem applied at the fresh state and at the
state it produces. -/
theorem dialect_newest_drafts_store_ordinal_witness :
    cmd_dialect st0 req2020 =
      Except.ok (Json.obj [("ok", Json.bool true)], { version := some 9, line := 0 }) ∧
    ({ version := some 9, line := 0 } : Runner).version = some 9 ∧
    cmd_run probeEnv { version := some 9, line := 0 } probeReq [] =
      (Except.ok (successResponse probeReq [Json.obj [("valid", Json.bool true)]]), []) :=
  ⟨rfl,
    dialect_newest_drafts_store_ordinal.1 st0 (Json.obj [("ok", Json.bool true)])
      { version := some 9, line := 0 } rfl,
    dialect_newest_drafts_store_ordinal.2.2 { version := some 9, line := 0 } rfl⟩

/-- C9: a dialect request without a dialect field fails the assert, the
failure escapes cmd_dialect, the loop terminates with no ok response for
that line, and the session dialect is untouched. -/
theorem dialect_missing_field_escapes (env : Env) (sys : Sys)
    (req : List (String × Json)) (rest : List (Option Json))
    (hcmd : jget req "cmd" = some (Json.str "dialect"))
    (hmiss : jget req "dialect" = none) :
    cmd_dialect sys.st req =
      Except.error (PyErr.assertError "dialect command expects a dialect") ∧
    runLoop env sys (some (Json.obj req) :: rest) =
      ([], Final.crashed (PyErr.assertError "dialect command expects a dialect")
        (bumpLine sys)) ∧
    (bumpLine sys).st.version = sys.st.version := by
  have hcd : ∀ st : Runner, cmd_dialect st req =
      Except.error (PyErr.assertError "dialect command expects a dialect") := by
    intro st
    unfold cmd_dialect
    rw [hmiss]
  refine ⟨hcd sys.st, ?_, rfl⟩
  refine runLoop_cons_crash env sys req rest _ _ ?_
  rw [process_dialect env (bumpLine sys) req hcmd, hcd (bumpLine sys).st]

/-- C9 witness: the theorem applied to a concrete dialect request lacking
the dialect field. -/
theorem dialect_missing_field_escapes_witness :
    jget reqDialectMissing "cmd" = some (Json.str "dialect") ∧
    jget reqDialectMissing "dialect" = none ∧
    (cmd_dialect sys0.st reqDialectMissing =
        Except.error (PyErr.assertError "dialect command expects a dialect") ∧
      runLoop idEnv sys0 [some (Json.obj reqDialectMissing)] =
        ([], Final.crashed (PyErr.assertError "dialect command expects a dialect")
          (bumpLine sys0)) ∧
      (bumpLine sys0).st.version = sys0.st.version) :=
  ⟨rfl, rfl, dialect_missing_field_escapes idEnv sys0 reqDialectMissing [] rfl rfl⟩

/-- C10: whenever a dialect command returns, the stored session dialect is
some concrete ordinal in 0, 3, 4, 6, 7, 8, 9 — never none. -/
theorem dialect_reply_version_concrete (st : Runner) (req : List (String × Json))
    (res : Json) (st2 : Runner)
    (h : cmd_dialect st req = Except.ok (res, st2)) :
    ∃ v : Int, st2.version = some v ∧ v ∈ ([0, 3, 4, 6, 7, 8, 9] : List Int) := by
  unfold cmd_dialect at h
  split at h
  · exact Except.noConfusion h
  rename_i d hd
  split at h
  · exact Except.noConfusion h
  rename_i v hv
  injection h with h
  injection h with h1 h2
  refine ⟨v, ?_, versionOf_ok_mem d v hv⟩
  rw [← h2]

/-- C10 witness: the theorem applied to the draft 2020-12 request. -/
theorem dialect_reply_version_concrete_witness :
    cmd_dialect st0 req2020 =
      Except.ok (Json.obj [("ok", Json.bool true)], { version := some 9, line := 0 }) ∧
    (∃ v : Int, ({ version := some 9, line := 0 } : Runner).version = some v ∧
      v ∈ ([0, 3, 4, 6, 7, 8, 9] : List Int)) :=
  ⟨rfl, dialect_reply_version_concrete st0 req2020 (Json.obj [("ok", Json.bool true)])
    { version := some 9, line := 0 } rfl⟩

/-- C1: a run request answered without an execution error yields a success
envelope whose results list has exactly one valid-entry per element of
case.tests, in the same order: the i-th result is the checker verdict on the
i-th test instance; an empty tests list yields an empty results list. -/
theorem run_results_one_per_test (env : Env) (st : Runner)
    (req caseObj : List (String × Json)) (tests : List Json)
    (disk disk2 : Disk) (res : Json)
    (hcase : jget req "case" = some (Json.obj caseObj))
    (htests : jget caseObj "tests" = some (Json.arr tests))
    (hrun : cmd_run env st req disk = (Except.ok res, disk2))
    (hnoerr : isErrored res = false) :
    ∃ descr schema checker results,
      descrCheck (jget caseObj "description") = Except.ok descr ∧
      jget caseObj "schema" = some schema ∧
      env.compile schema descr CACHE st.version = Except.ok checker ∧
      evalTests checker tests = Except.ok results ∧
      res = successResponse req results ∧
      results.length = tests.length ∧
      ∀ i, i < tests.length → ∃ t b, tests[i]? = some t ∧
        Except.bind (getInstance t) checker = Except.ok b ∧
        results[i]? = some (Json.obj [("valid", Json.bool b)]) := by
  obtain ⟨caseObj0, descr, tests0, files, disk1, tryRes,
    hcase0, hdesc0, htests0, hRT, hUn, hout⟩ :=
    cmd_run_ok_cases env st req disk res disk2 hrun
  rw [hcase] at hcase0
  injection hcase0 with hc
  injection hc with hc
  subst hc
  rw [htests] at htests0
  injection htests0 with ht
  injection ht with ht
  subst ht
  rcases hout with ⟨results, hTR, hres⟩ | ⟨e, hTR, hres⟩
  · subst hTR
    obtain ⟨schema, checker, hschema, hcompile, hEval⟩ :=
      runTry_ok_evalTests env caseObj descr tests st.version disk files disk1 results hRT
    obtain ⟨hlen, hspec⟩ := evalTests_ok_spec checker tests results hEval
    exact ⟨descr, schema, checker, results, hdesc0, hschema, hcompile, hEval,
      hres, hlen, hspec⟩
  · rw [hres] at hnoerr
    rw [show isErrored (erroredResponse req e) = true from rfl] at hnoerr
    exact Bool.noConfusion hnoerr

/-- C1 witness: a case with an empty tests list yields an empty results
list with no error. -/
theorem run_results_one_per_test_witness :
    cmd_run idEnv st0 req1 [] = (Except.ok (successResponse req1 []), []) ∧
    isErrored (successResponse req1 []) = false ∧
    (∃ descr schema checker results,
      descrCheck (jget case1 "description") = Except.ok descr ∧
      jget case1 "schema" = some schema ∧
      idEnv.compile schema descr CACHE st0.version = Except.ok checker ∧
      evalTests checker [] = Except.ok results ∧
      successResponse req1 [] = successResponse req1 results ∧
      results.length = List.length ([] : List Json) ∧
      ∀ i, i < List.length ([] : List Json) → ∃ t b, ([] : List Json)[i]? = some t ∧
        Except.bind (getInstance t) checker = Except.ok b ∧
        results[i]? = some (Json.obj [("valid", Json.bool b)])) :=
  ⟨rfl, rfl, run_results_one_per_test idEnv st0 req1 case1 [] [] []
    (successResponse req1 []) rfl rfl rfl rfl⟩

/-- C5: whenever cmd_run produces a response — the success envelope as well
as the errored envelope — every cache file recorded during the try phase is
absent from the disk the call leaves behind. -/
theorem run_reply_removes_written_cache_files (env : Env) (st : Runner)
    (req caseObj : List (String × Json)) (descr : Option String)
    (tests : List Json) (files : List String) (tryRes : Except PyErr (List Json))
    (disk disk1 disk2 : Disk) (res : Json)
    (hcase : jget req "case" = some (Json.obj caseObj))
    (hdesc : descrCheck (jget caseObj "description") = Except.ok descr)
    (htests : jget caseObj "tests" = some (Json.arr tests))
    (hRT : runTry env caseObj descr tests st.version disk = (files, disk1, tryRes))
    (hrun : cmd_run env st req disk = (Except.ok res, disk2)) :
    ∀ fn ∈ files, diskHas fn disk2 = false := by
  obtain ⟨caseObj0, descr0, tests0, files0, disk10, tryRes0,
    hcase0, hdesc0, htests0, hRT0, hUn, _⟩ :=
    cmd_run_ok_cases env st req disk res disk2 hrun
  rw [hcase] at hcase0
  injection hcase0 with hc
  injection hc with hc
  subst hc
  rw [hdesc] at hdesc0
  injection hdesc0 with hd
  subst hd
  rw [htests] at htests0
  injection htests0 with ht
  injection ht with ht
  subst ht
  rw [hRT] at hRT0
  injection hRT0 with h1 h2
  injection h2 with h2 h3
  subst h1
  subst h2
  exact unlinkAll_none_removes files disk1 disk2 hUn

/-- C5 witness: a run through an environment with one registry entry writes
one cache file and leaves it removed from the final disk. -/
theorem run_reply_removes_written_cache_files_witness :
    cmd_run regEnv st0 req1 [] = (Except.ok (successResponse req1 []), []) ∧
    ∀ fn ∈ [cacheFile regEnv "urn:spec"], diskHas fn ([] : Disk) = false :=
  ⟨rfl, run_reply_removes_written_cache_files regEnv st0 req1 case1 none []
    [cacheFile regEnv "urn:spec"] (Except.ok [])
    [] [(cacheFile regEnv "urn:spec", Json.bool true)] [] (successResponse req1 [])
    rfl rfl rfl rfl rfl⟩

/-- C7 counterexample: a failing run request without a seq field is answered
by an error envelope whose seq field is null — there is no line-derived
fallback, contradicting the claim that the correlation field is never null. -/
theorem error_reply_null_seq_cex :
    jget reqNoSeq "seq" = none ∧
    cmd_run failCompileEnv st0 reqNoSeq [] =
      (Except.ok (erroredResponse reqNoSeq (PyErr.engineError "compilation failed")), []) ∧
    Json.get? (erroredResponse reqNoSeq (PyErr.engineError "compilation failed")) "seq" =
      some Json.null :=
  ⟨rfl, rfl, rfl⟩

/-- C7 (amended): every error envelope carries a seq field equal to
req.get("seq") — the request's seq when present and null when absent; no
line-derived fallback exists. -/
theorem error_reply_seq_is_req_seq_or_null (env : Env) (st : Runner)
    (req : List (String × Json)) (disk disk2 : Disk) (res : Json)
    (hrun : cmd_run env st req disk = (Except.ok res, disk2))
    (herr : isErrored res = true) :
    ∃ e, res = erroredResponse req e ∧
      Json.get? res "seq" = some (seqOf req) ∧
      seqOf req = (jget req "seq").getD Json.null := by
  obtain ⟨_, _, _, _, _, _, _, _, _, _, _, hout⟩ :=
    cmd_run_ok_cases env st req disk res disk2 hrun
  rcases hout with ⟨results, _, hres⟩ | ⟨e, _, hres⟩
  · rw [hres] at herr
    rw [show isErrored (successResponse req results) = false from rfl] at herr
    exact Bool.noConfusion herr
  · refine ⟨e, hres, ?_, rfl⟩
    rw [hres]
    rfl

/-- C7 witness: the amended theorem applied to the failing seq-less run. -/
theorem error_reply_seq_is_req_seq_or_null_witness :
    cmd_run failCompileEnv st0 reqNoSeq [] =
      (Except.ok (erroredResponse reqNoSeq (PyErr.engineError "compilation failed")), []) ∧
    isErrored (erroredResponse reqNoSeq (PyErr.engineError "compilation failed")) = true ∧
    (∃ e, erroredResponse reqNoSeq (PyErr.engineError "compilation failed") =
        erroredResponse reqNoSeq e ∧
      Json.get? (erroredResponse reqNoSeq (PyErr.engineError "compilation failed")) "seq" =
        some (seqOf reqNoSeq) ∧
      seqOf reqNoSeq = (jget reqNoSeq "seq").getD Json.null) :=
  ⟨rfl, rfl, error_reply_seq_is_req_seq_or_null failCompileEnv st0 reqNoSeq [] []
    (erroredResponse reqNoSeq (PyErr.engineError "compilation failed")) rfl rfl⟩

/-- C4 counterexample: with an environment whose cache write fails, the try
phase fails during registry caching (OSError), but the error envelope built
by the except clause is discarded: the finally cleanup raises
FileNotFoundError on the never-created file, the failure escapes cmd_run,
and the loop crashes with no response at all. -/
theorem caching_failure_escapes_run_cex :
    (runTry failWriteEnv case1 none [] st0.version []).2.2 =
      Except.error (PyErr.osError (cacheFile failWriteEnv "urn:spec")) ∧
    cmd_run failWriteEnv st0 req1 [] =
      (Except.error (PyErr.fileNotFound (cacheFile failWriteEnv "urn:spec")), []) ∧
    runLoop failWriteEnv sys0 [some (Json.obj req1)] =
      ([], Final.crashed (PyErr.fileNotFound (cacheFile failWriteEnv "urn:spec"))
        (bumpLine sys0)) :=
  ⟨rfl, rfl, rfl⟩

/-- C4 (amended): when the try phase of a run fails with its cache writes
all landed (distinct filenames, all present on disk), the handler returns
the error envelope and the session state — in particular the dialect — is
unchanged; the isolation does not cover registry-caching failures, whose
cleanup raises and escapes the handler (see the counterexample). -/
theorem run_failure_with_files_present_replies_errored
    (env : Env) (sys : Sys) (req caseObj : List (String × Json))
    (descr : Option String) (tests : List Json) (files : List String)
    (disk1 : Disk) (e : PyErr)
    (hcmd : jget req "cmd" = some (Json.str "run"))
    (hcase : jget req "case" = some (Json.obj caseObj))
    (hdesc : descrCheck (jget caseObj "description") = Except.ok descr)
    (htests : jget caseObj "tests" = some (Json.arr tests))
    (hTry : runTry env caseObj descr tests sys.st.version sys.disk =
      (files, disk1, Except.error e))
    (hnd : files.Nodup)
    (hon : ∀ fn ∈ files, diskHas fn disk1 = true) :
    ∃ disk2, process env sys req =
      StepRes.reply (erroredResponse req e) { st := sys.st, disk := disk2 } := by
  obtain ⟨disk2, hUn⟩ := unlinkAll_succeeds files disk1 hnd hon
  refine ⟨disk2, ?_⟩
  have hRun : cmd_run env sys.st req sys.disk =
      (Except.ok (erroredResponse req e), disk2) := by
    simp only [cmd_run, hcase, hdesc, htests, hTry, hUn]
  rw [process_run env sys req hcmd, hRun]

/-- C4 witness: an engine failure on an empty registry yields the errored
reply with the session state intact. -/
theorem run_failure_with_files_present_replies_errored_witness :
    runTry failCompileEnv case1 none [] sys0.st.version sys0.disk =
      ([], [], Except.error (PyErr.engineError "compilation failed")) ∧
    (∃ disk2, process failCompileEnv sys0 req1 =
      StepRes.reply (erroredResponse req1 (PyErr.engineError "compilation failed"))
        { st := sys0.st, disk := disk2 }) :=
  ⟨rfl, run_failure_with_files_present_replies_errored failCompileEnv sys0 req1 case1
    none [] [] [] (PyErr.engineError "compilation failed") rfl rfl rfl rfl rfl
    List.nodup_nil (fun fn hfn => absurd hfn (List.not_mem_nil fn))⟩

/-- C6 counterexample: a request with an unrecognised command crashes the
loop with no response; the following stop line is never read (the claim
demands a non-fatal error response and continuation). -/
theorem unknown_cmd_crashes_cex :
    runLoop idEnv sys0
      [some (Json.obj [("cmd", Json.str "bogus")]),
       some (Json.obj [("cmd", Json.str "stop")])] =
      ([], Final.crashed
        (PyErr.runnerError ("unexpected bowtie command cmd=" ++ "bogus"))
        (bumpLine sys0)) :=
  rfl

/-- Dispatch of a string command reduces to the if chain of process. -/
theorem process_str_cmd (env : Env) (sys : Sys) (req : List (String × Json))
    (s : String) (hcmd : jget req "cmd" = some (Json.str s)) :
    process env sys req =
      (if s = "start" then
        match cmd_start env req with
        | Except.ok res => StepRes.reply res sys
        | Except.error e => StepRes.crash e sys
      else if s = "dialect" then
        match cmd_dialect sys.st req with
        | Except.ok (res, st1) => StepRes.reply res { sys with st := st1 }
        | Except.error e => StepRes.crash e sys
      else if s = "run" then
        match cmd_run env sys.st req sys.disk with
        | (Except.ok res, disk1) => StepRes.reply res { sys with disk := disk1 }
        | (Except.error e, disk1) => StepRes.crash e { sys with disk := disk1 }
      else if s = "stop" then StepRes.exit sys
      else StepRes.crash
        (PyErr.runnerError ("unexpected bowtie command cmd=" ++ s)) sys) := by
  unfold process
  rw [hcmd]
  rfl

/-- C6 (amended): an unrecognised command raises RunnerError, which the
top-level loop re-raises: the process terminates with no response for that
line and reads no further lines. -/
theorem unknown_cmd_terminates_loop (env : Env) (sys : Sys)
    (req : List (String × Json)) (rest : List (Option Json)) (s : String)
    (hcmd : jget req "cmd" = some (Json.str s))
    (h1 : s ≠ "start") (h2 : s ≠ "dialect") (h3 : s ≠ "run") (h4 : s ≠ "stop") :
    runLoop env sys (some (Json.obj req) :: rest) =
      ([], Final.crashed
        (PyErr.runnerError ("unexpected bowtie command cmd=" ++ s))
        (bumpLine sys)) := by
  refine runLoop_cons_crash env sys req rest _ _ ?_
  rw [process_str_cmd env (bumpLine sys) req s hcmd,
    if_neg h1, if_neg h2, if_neg h3, if_neg h4]

/-- C6 witness: the amended theorem applied to a concrete bogus command. -/
theorem unknown_cmd_terminates_loop_witness :
    jget [("cmd", Json.str "bogus")] "cmd" = some (Json.str "bogus") ∧
    runLoop idEnv sys0 [some (Json.obj [("cmd", Json.str "bogus")])] =
      ([], Final.crashed
        (PyErr.runnerError ("unexpected bowtie command cmd=" ++ "bogus"))
        (bumpLine sys0)) :=
  ⟨rfl, unknown_cmd_terminates_loop idEnv sys0 [("cmd", Json.str "bogus")] [] "bogus"
    rfl (by decide) (by decide) (by decide) (by decide)⟩

/-- A bad description fails the assert of cmd_run. -/
theorem badDescription_error (o : Option Json) (h : badDescription o = true) :
    descrCheck o = Except.error (PyErr.assertError "description is a string or none") := by
  cases o with
  | none => exact Bool.noConfusion h
  | some v =>
    cases v with
    | null => exact Bool.noConfusion h
    | str s => exact Bool.noConfusion h
    | bool b => rfl
    | num n => rfl
    | arr xs => rfl
    | obj kvs => rfl

/-- A good description passes the assert of cmd_run. -/
theorem badDescription_false_ok (o : Option Json) (h : badDescription o = false) :
    ∃ d, descrCheck o = Except.ok d := by
  cases o with
  | none => exact ⟨none, rfl⟩
  | some v =>
    cases v with
    | null => exact ⟨none, rfl⟩
    | str s => exact ⟨some s, rfl⟩
    | bool b => exact Bool.noConfusion h
    | num n => exact Bool.noConfusion h
    | arr xs => exact Bool.noConfusion h
    | obj kvs => exact Bool.noConfusion h

/-- A bad tests field is present and not a list. -/
theorem badTests_shape (o : Option Json) (h : badTests o = true) :
    ∃ v, o = some v ∧ ∀ xs, v ≠ Json.arr xs := by
  cases o with
  | none => exact Bool.noConfusion h
  | some v =>
    cases v with
    | arr xs => exact Bool.noConfusion h
    | null => exact ⟨Json.null, rfl, fun xs hx => Json.noConfusion hx⟩
    | bool b => exact ⟨Json.bool b, rfl, fun xs hx => Json.noConfusion hx⟩
    | num n => exact ⟨Json.num n, rfl, fun xs hx => Json.noConfusion hx⟩
    | str s => exact ⟨Json.str s, rfl, fun xs hx => Json.noConfusion hx⟩
    | obj kvs => exact ⟨Json.obj kvs, rfl, fun xs hx => Json.noConfusion hx⟩

/-- A bad-shaped run request makes cmd_run raise before its try block,
whatever the session state and the disk, leaving both untouched. -/
theorem badRunShape_escapes (env : Env) (req : List (String × Json))
    (hbad : badRunShape req = true) :
    ∃ e, ∀ (st : Runner) (disk : Disk),
      cmd_run env st req disk = (Except.error e, disk) := by
  cases hcase : jget req "case" with
  | none =>
    refine ⟨PyErr.keyError "case", fun st disk => ?_⟩
    simp only [cmd_run, hcase]
  | some v =>
    cases v with
    | obj c =>
      have hbad2 : (badDescription (jget c "description") ||
          badTests (jget c "tests")) = true := by
        simpa [badRunShape, hcase] using hbad
      cases hbd : badDescription (jget c "description") with
      | true =>
        refine ⟨PyErr.assertError "description is a string or none", fun st disk => ?_⟩
        simp only [cmd_run, hcase, badDescription_error _ hbd]
      | false =>
        have hbt : badTests (jget c "tests") = true := by
          rw [hbd] at hbad2
          simpa using hbad2
        obtain ⟨d, hdok⟩ := badDescription_false_ok _ hbd
        obtain ⟨w, htv, hnl⟩ := badTests_shape _ hbt
        refine ⟨PyErr.assertError "tests is a list of instances", fun st disk => ?_⟩
        cases w with
        | arr xs => exact absurd rfl (hnl xs)
        | null => simp only [cmd_run, hcase, hdok, htv]
        | bool b => simp only [cmd_run, hcase, hdok, htv]
        | num n => simp only [cmd_run, hcase, hdok, htv]
        | str s => simp only [cmd_run, hcase, hdok, htv]
        | obj kvs => simp only [cmd_run, hcase, hdok, htv]
    | null =>
      refine ⟨PyErr.assertError "case is an object", fun st disk => ?_⟩
      simp only [cmd_run, hcase]
    | bool b =>
      refine ⟨PyErr.assertError "case is an object", fun st disk => ?_⟩
      simp only [cmd_run, hcase]
    | num n =>
      refine ⟨PyErr.assertError "case is an object", fun st disk => ?_⟩
      simp only [cmd_run, hcase]
    | str s =>
      refine ⟨PyErr.assertError "case is an object", fun st disk => ?_⟩
      simp only [cmd_run, hcase]
    | arr xs =>
      refine ⟨PyErr.assertError "case is an object", fun st disk => ?_⟩
      simp only [cmd_run, hcase]

/-- C8: a run request whose case is absent or not an object, whose
description is present but neither null nor a string, or whose tests field
is present but not a list, fails the shape checks before the try block: the
failure escapes cmd_run with no error envelope and the loop terminates with
no response for that line. -/
theorem bad_run_shape_escapes_and_terminates (env : Env) (sys : Sys)
    (req : List (String × Json)) (rest : List (Option Json))
    (hcmd : jget req "cmd" = none ∨ jget req "cmd" = some (Json.str "run"))
    (hbad : badRunShape req = true) :
    ∃ e, cmd_run env sys.st req sys.disk = (Except.error e, sys.disk) ∧
      runLoop env sys (some (Json.obj req) :: rest) =
        ([], Final.crashed e (bumpLine sys)) := by
  obtain ⟨e, hall⟩ := badRunShape_escapes env req hbad
  refine ⟨e, hall sys.st sys.disk, ?_⟩
  refine runLoop_cons_crash env sys req rest _ _ ?_
  rcases hcmd with hcmd | hcmd
  · rw [process_default_run env (bumpLine sys) req hcmd,
      hall (bumpLine sys).st (bumpLine sys).disk]
  · rw [process_run env (bumpLine sys) req hcmd,
      hall (bumpLine sys).st (bumpLine sys).disk]

/-- C8 witness: a run request whose case field is null escapes and crashes
the loop. -/
theorem bad_run_shape_escapes_and_terminates_witness :
    badRunShape reqBadCase = true ∧
    (∃ e, cmd_run idEnv sys0.st reqBadCase sys0.disk = (Except.error e, sys0.disk) ∧
      runLoop idEnv sys0 [some (Json.obj reqBadCase)] =
        ([], Final.crashed e (bumpLine sys0))) :=
  ⟨rfl, bad_run_shape_escapes_and_terminates idEnv sys0 reqBadCase []
    (Or.inl rfl) rfl⟩
